import Mathlib

/-!
Verification of the AI Picture Styler single-page application
(`src/App.tsx`) against its natural-language specification.

The application is a single React component holding one in-memory state
record.  We embed that record as `AppState`, the preset catalog as
`PRESET_STYLES`, the file-processing routine as `processFile`, the
remove-image handler as `removeImage`, and the generation handler as a
pure function `handleGenerate : AppState → CallOutcome → AppState ×
Option GenRequest`: given the outcome the remote call would have (a
response value or a thrown error), it returns the final state together
with the request that was issued (`none` when the handler aborted before
the request stage).  User interactions are collected in an `Event` type
with a `step` function, and `Reachable` is the set of states reachable
from the initial state.
-/

/-- A catalog entry, embedding the object literals of `PRESET_STYLES`
in `src/App.tsx`. -/
structure StylePreset where
  id : String
  label : String
  description : String
  prompt : String
deriving Repr, DecidableEq

/-- The fixed style catalog (`PRESET_STYLES`, `src/App.tsx` lines 5-11). -/
def PRESET_STYLES : List StylePreset := [
  { id := "anime", label := "動漫風格",
    description := "Inspired by Japanese animation with vibrant colors and distinct character designs.",
    prompt := "Anime style, Studio Ghibli, high quality, vibrant colors, 2D illustration" },
  { id := "cyberpunk", label := "賽博龐克",
    description := "Futuristic sci-fi aesthetic with neon lights and high-tech elements.",
    prompt := "Cyberpunk style, neon lights, futuristic city, highly detailed, sci-fi" },
  { id := "watercolor", label := "水彩畫",
    description := "Artistic painting style with soft edges and expressive brush strokes.",
    prompt := "Watercolor painting style, artistic, soft edges, expressive brush strokes" },
  { id := "sketch", label := "鉛筆素描",
    description := "Detailed black and white hand-drawn pencil illustration.",
    prompt := "Pencil sketch style, detailed, black and white, hand-drawn" },
  { id := "3d", label := "3D 渲染",
    description := "High-quality 3D computer graphics similar to modern animated films.",
    prompt := "3D render, Pixar style, Unreal Engine 5, volumetric lighting, cute" }
]

/-- The component's state record (the `useState` fields of `App`,
`src/App.tsx` lines 14-21).  `Option String` stands for the TypeScript
`string | null` fields. -/
structure AppState where
  originalImage : Option String
  mimeType : String
  selectedStyle : String
  customStyle : String
  generatedImage : Option String
  isGenerating : Bool
  error : Option String
  isDragging : Bool
deriving Repr, DecidableEq

/-- The initial state (`useState` initializers, `src/App.tsx` lines 14-21);
`selectedStyle` starts as `PRESET_STYLES[0].id`. -/
def initState : AppState :=
  { originalImage := none
    mimeType := ""
    selectedStyle := (PRESET_STYLES.headD { id := "", label := "", description := "", prompt := "" }).id
    customStyle := ""
    generatedImage := none
    isGenerating := false
    error := none
    isDragging := false }

/-- Whether the character list `l` begins with the character list `p`. -/
def charsStartWith : List Char → List Char → Bool
  | _, [] => true
  | [], _ :: _ => false
  | a :: as, b :: bs => a == b && charsStartWith as bs

/-- JavaScript `s.startsWith(p)`, written over the character lists so that
it evaluates on concrete inputs. -/
def jsStartsWith (s p : String) : Bool :=
  charsStartWith s.data p.data

/-- JavaScript `s.trim()`: the string with leading and trailing whitespace
removed, written over the character list so that it evaluates on concrete
inputs. -/
def jsTrim (s : String) : String :=
  String.mk (((s.data.dropWhile Char.isWhitespace).reverse.dropWhile Char.isWhitespace).reverse)

/-- JavaScript `s.split(sep)` for a one-character separator, written over
the character list so that it evaluates on concrete inputs; like the
JavaScript original it yields `[s]` when the separator does not occur. -/
def jsSplit (s : String) (sep : Char) : List String :=
  (s.data.splitOn sep).map String.mk

/-- JavaScript `a || b` on a string-or-undefined value `a`: the fallback
`b` is used when `a` is `undefined` or the empty string (both falsy).
Used at `src/App.tsx` lines 111 and 124. -/
def jsOr (a : Option String) (b : String) : String :=
  match a with
  | some v => if v = "" then b else v
  | none => b

/-- `processFile` (`src/App.tsx` lines 25-40).  A file is modeled by its
declared media type `fileType` and the data-URI `dataUrl` the
`FileReader` produces for it; the asynchronous `onload` completion is
folded into the same step. -/
def processFile (s : AppState) (fileType dataUrl : String) : AppState :=
  if ¬ jsStartsWith fileType "image/" then
    { s with error := some "請上傳圖片檔案 (JPEG, PNG 等)" }
  else
    { s with originalImage := some dataUrl
             mimeType := fileType
             generatedImage := none
             error := none }

/-- The remove-image button handler (`src/App.tsx` lines 194-198): it calls
`setOriginalImage(null)` and `setGeneratedImage(null)` and resets the DOM
file input (outside the state record); nothing else is written. -/
def removeImage (s : AppState) : AppState :=
  { s with originalImage := none, generatedImage := none }

/-- An inline-data payload of a response part
(`part.inlineData` in `src/App.tsx` line 110-111): base64 `data` and an
optional `mimeType` (`string | undefined`). -/
structure InlineData where
  data : String
  mimeType : Option String
deriving Repr, DecidableEq

/-- A part of a response candidate's content: an optional inline-data
payload and an optional text. -/
structure RespPart where
  inlineData : Option InlineData
  text : Option String
deriving Repr, DecidableEq

/-- A candidate's content: its list of parts. -/
structure Content where
  parts : List RespPart
deriving Repr, DecidableEq

/-- A response candidate. -/
structure Candidate where
  content : Content
deriving Repr, DecidableEq

/-- A response of the remote generation call: an optional candidate list
(`response.candidates`, `src/App.tsx` line 108). -/
structure GenResponse where
  candidates : Option (List Candidate)
deriving Repr, DecidableEq

/-- The outcome of the awaited remote call: either a response value, or a
thrown error carrying an optional `message` string (`err.message`,
`src/App.tsx` line 124; `none` models a missing message). -/
inductive CallOutcome where
  | ok (resp : GenResponse)
  | err (msg : Option String)
deriving Repr, DecidableEq

/-- A part of the outgoing request (`contents.parts`, `src/App.tsx`
lines 93-103): either inline image data (whose `data` is
`string | undefined` in the source, hence `Option String`) or a text
instruction. -/
inductive ReqPart where
  | inlineData (data : Option String) (mimeType : String)
  | text (t : String)
deriving Repr, DecidableEq

/-- The outgoing request to the remote service (`ai.models.generateContent`
argument, `src/App.tsx` lines 90-105). -/
structure GenRequest where
  model : String
  parts : List ReqPart
deriving Repr, DecidableEq


/-- The resolved prompt (`promptText`, `src/App.tsx` lines 74-76):
`customStyle` when `selectedStyle === 'custom'`, otherwise the `prompt`
of the catalog entry found by `PRESET_STYLES.find(s => s.id ===
selectedStyle)` (undefined when no entry matches). -/
def resolvePrompt (s : AppState) : Option String :=
  if s.selectedStyle = "custom" then some s.customStyle
  else (PRESET_STYLES.find? (fun p => p.id == s.selectedStyle)).map (fun p => p.prompt)

/-- The data-URI built from a response inline-data part
(`src/App.tsx` line 111): media type defaulted by `||` to `"image/png"`. -/
def mkImgUrl (d : InlineData) : String :=
  "data:" ++ jsOr d.mimeType "image/png" ++ ";base64," ++ d.data

/-- The response scan of `src/App.tsx` lines 107-117: when the candidate
list is present and non-empty, the first part of the first candidate's
content whose `inlineData` is present; `none` when no candidate or no
such part exists. -/
def firstInline (r : GenResponse) : Option InlineData :=
  match r.candidates with
  | some (c :: _) => c.content.parts.findSome? (fun p => p.inlineData)
  | _ => none

/-- The generic failure fallback message (`src/App.tsx` line 124). -/
def fallbackMsg : String := "發生錯誤，請稍後再試"

/-- `handleGenerate` (`src/App.tsx` lines 68-128), as a pure function of
the current state and the remote call's outcome.  Returns the final
state and the request issued (`none` when an early validation aborted
before any request).  The `try`-block control flow: on a found image the
data-URI is stored; otherwise an error with message
`無法生成圖片，請稍後再試` is thrown and caught by the same `catch` as a
service error; `finally` clears `isGenerating`. -/
def handleGenerate (s : AppState) (o : CallOutcome) : AppState × Option GenRequest :=
  match s.originalImage with
  | none => ({ s with error := some "請先上傳圖片" }, none)
  | some originalImage =>
    match resolvePrompt s with
    | none => ({ s with error := some "請選擇或輸入風格" }, none)
    | some promptText =>
      if jsTrim promptText = "" then
        ({ s with error := some "請選擇或輸入風格" }, none)
      else
        let s1 := { s with isGenerating := true, error := none }
        let base64Data := (jsSplit originalImage ',').get? 1
        let req : GenRequest :=
          { model := "gemini-2.5-flash-image"
            parts := [ReqPart.inlineData base64Data s.mimeType,
                      ReqPart.text ("Convert this image to the following style: "
                        ++ promptText ++ ". Keep the main subject and composition the same.")] }
        let final :=
          match o with
          | CallOutcome.err msg => { s1 with error := some (jsOr msg fallbackMsg) }
          | CallOutcome.ok resp =>
            match firstInline resp with
            | some d => { s1 with generatedImage := some (mkImgUrl d) }
            | none => { s1 with error := some (jsOr (some "無法生成圖片，請稍後再試") fallbackMsg) }
        ({ final with isGenerating := false }, some req)

/-- The generate button's `disabled` expression (`src/App.tsx` line 280):
`!originalImage || isGenerating || (selectedStyle === 'custom' &&
!customStyle.trim())`. -/
def generateDisabled (s : AppState) : Bool :=
  s.originalImage.isNone || s.isGenerating
    || (s.selectedStyle == "custom" && jsTrim s.customStyle == "")

/-- A user interaction (or completed asynchronous operation) that mutates
the state record: uploading a file through the picker or a drop, removing
the image, clicking a style card, editing the custom text, triggering a
generation whose remote call has outcome `o`, and the drag hover events. -/
inductive Event where
  | upload (fileType dataUrl : String)
  | removeImage
  | selectStyle (id : String)
  | editCustom (t : String)
  | generate (o : CallOutcome)
  | dragOver
  | dragLeave
deriving Repr, DecidableEq

/-- One state transition per event, each given by the corresponding
handler in `src/App.tsx`. -/
def step (s : AppState) : Event → AppState
  | Event.upload fileType dataUrl => processFile s fileType dataUrl
  | Event.removeImage => removeImage s
  | Event.selectStyle id => { s with selectedStyle := id }
  | Event.editCustom t => { s with customStyle := t }
  | Event.generate o => (handleGenerate s o).1
  | Event.dragOver => { s with isDragging := true }
  | Event.dragLeave => { s with isDragging := false }

/-- States reachable from the initial state by a sequence of events. -/
inductive Reachable : AppState → Prop where
  | init : Reachable initState
  | next {s : AppState} (h : Reachable s) (e : Event) : Reachable (step s e)

/-- A concrete loaded-image state used to instantiate theorems with
hypotheses: the initial state after a successful PNG upload. -/
def imgState : AppState :=
  { initState with originalImage := some "data:image/png;base64,AAAA", mimeType := "image/png" }

/-! ## Helper lemmas about the response scan -/

theorem findSome_inline_eq (pre suf : List RespPart) (p : RespPart) (d : InlineData)
    (hpre : ∀ q ∈ pre, q.inlineData = none) (hp : p.inlineData = some d) :
    (pre ++ p :: suf).findSome? (fun q => q.inlineData) = some d := by
  induction pre with
  | nil => simp [List.findSome?, hp]
  | cons a as ih =>
    have ha : a.inlineData = none := hpre a (by simp)
    have has : ∀ q ∈ as, q.inlineData = none := fun q hq => hpre q (by simp [hq])
    simpa [List.findSome?, ha] using ih has

theorem findSome_inline_none (l : List RespPart)
    (h : ∀ q ∈ l, q.inlineData = none) :
    l.findSome? (fun q => q.inlineData) = none := by
  induction l with
  | nil => simp [List.findSome?]
  | cons a as ih =>
    have ha : a.inlineData = none := h a (by simp)
    have has : ∀ q ∈ as, q.inlineData = none := fun q hq => h q (by simp [hq])
    simpa [List.findSome?, ha] using ih has

/-! ## C1 -/

/-- C1: for a generation call whose response has at least one candidate,
the result comes from the first inline-data part of the first candidate's
content: `generatedImage` is the data-URI built from that part (media type
defaulting to `image/png` when the part omits one, and taken verbatim when
it declares a non-empty one), and the parts after the first inline-data
part (`suf` versus `suf2`) never affect the resulting state. -/
theorem C1_first_inline_part_result
    (s : AppState) (orig pt : String)
    (ho : s.originalImage = some orig)
    (hp : resolvePrompt s = some pt) (hb : jsTrim pt ≠ "")
    (pre suf suf2 : List RespPart) (p : RespPart) (d : InlineData) (cs : List Candidate)
    (hpre : ∀ q ∈ pre, q.inlineData = none) (hd : p.inlineData = some d) :
    ((handleGenerate s (CallOutcome.ok
        { candidates := some ({ content := { parts := pre ++ p :: suf } } :: cs) })).1.generatedImage
      = some (mkImgUrl d))
    ∧ ((handleGenerate s (CallOutcome.ok
        { candidates := some ({ content := { parts := pre ++ p :: suf } } :: cs) })).1
      = (handleGenerate s (CallOutcome.ok
        { candidates := some ({ content := { parts := pre ++ p :: suf2 } } :: cs) })).1)
    ∧ (d.mimeType = none → mkImgUrl d = "data:image/png;base64," ++ d.data)
    ∧ (∀ m : String, d.mimeType = some m → m ≠ "" →
        mkImgUrl d = "data:" ++ m ++ ";base64," ++ d.data) := by
  have hfi : ∀ suffix : List RespPart,
      firstInline { candidates := some ({ content := { parts := pre ++ p :: suffix } } :: cs) }
        = some d := by
    intro suffix
    simp [firstInline, findSome_inline_eq pre suffix p d hpre hd]
  refine ⟨?_, ?_, ?_, ?_⟩
  · simp [handleGenerate, ho, hp, hb, hfi]
  · simp [handleGenerate, ho, hp, hb, hfi]
  · intro hm
    simp [mkImgUrl, jsOr, hm]
  · intro m hm hne
    simp [mkImgUrl, jsOr, hm, hne]

/-- Witness for C1 at a concrete state and response: a leading text part is
skipped, the middle inline part (with no media type) wins, a trailing
inline part is ignored. -/
theorem C1_first_inline_part_result_witness :
    (handleGenerate imgState (CallOutcome.ok
        { candidates := some [{ content := { parts :=
            [{ inlineData := none, text := some "ok" },
             { inlineData := some { data := "BBBB", mimeType := none }, text := none },
             { inlineData := some { data := "CCCC", mimeType := some "image/jpeg" }, text := none }] } }] })).1.generatedImage
      = some "data:image/png;base64,BBBB" := by
  have h := C1_first_inline_part_result imgState "data:image/png;base64,AAAA"
    "Anime style, Studio Ghibli, high quality, vibrant colors, 2D illustration"
    rfl (by decide) (by decide)
    [{ inlineData := none, text := some "ok" }]
    [{ inlineData := some { data := "CCCC", mimeType := some "image/jpeg" }, text := none }]
    [] { inlineData := some { data := "BBBB", mimeType := none }, text := none }
    { data := "BBBB", mimeType := none } [] (by decide) rfl
  simpa [mkImgUrl, jsOr] using h.1

/-! ## C2 -/

/-- C2: every trigger that reaches the request stage issues exactly one
request, with the inline-data part (payload after the data-URI comma,
paired with `mimeType`) first and the instruction text part second,
whatever the call's outcome; and the resolved prompt is `customStyle`
verbatim when `selectedStyle = "custom"` and the matching catalog entry's
`prompt` otherwise. -/
theorem C2_request_shape
    (s : AppState) (orig pt : String) (o : CallOutcome)
    (ho : s.originalImage = some orig)
    (hp : resolvePrompt s = some pt) (hb : jsTrim pt ≠ "") :
    (handleGenerate s o).2 = some
      { model := "gemini-2.5-flash-image"
        parts := [ReqPart.inlineData ((jsSplit orig ',').get? 1) s.mimeType,
                  ReqPart.text ("Convert this image to the following style: " ++ pt
                    ++ ". Keep the main subject and composition the same.")] }
    ∧ (s.selectedStyle = "custom" → pt = s.customStyle)
    ∧ (∀ q ∈ PRESET_STYLES, q.id = s.selectedStyle → pt = q.prompt) := by
  refine ⟨?_, ?_, ?_⟩
  · cases o with
    | ok resp =>
      cases hf : firstInline resp <;> simp [handleGenerate, ho, hp, hb, hf]
    | err msg => simp [handleGenerate, ho, hp, hb]
  · intro hc
    rw [resolvePrompt, if_pos hc] at hp
    exact (Option.some_injective _ hp).symm
  · intro q hq hid
    simp only [PRESET_STYLES, List.mem_cons, List.not_mem_nil, or_false] at hq
    have hsel := hid.symm
    rcases hq with rfl | rfl | rfl | rfl | rfl <;>
      (rw [resolvePrompt, if_neg (by rw [hsel]; decide), hsel] at hp
       simp [PRESET_STYLES, List.find?] at hp
       exact hp.symm)

set_option maxRecDepth 4096 in
/-- Witness for C2 at a concrete loaded-image state with the default
preset and an error outcome. -/
theorem C2_request_shape_witness :
    (handleGenerate imgState (CallOutcome.err none)).2 = some
      { model := "gemini-2.5-flash-image"
        parts := [ReqPart.inlineData (some "AAAA") "image/png",
                  ReqPart.text ("Convert this image to the following style: Anime style, Studio Ghibli, high quality, vibrant colors, 2D illustration. Keep the main subject and composition the same.")] } := by
  have h := C2_request_shape imgState "data:image/png;base64,AAAA"
    "Anime style, Studio Ghibli, high quality, vibrant colors, 2D illustration"
    (CallOutcome.err none) rfl (by decide) (by decide)
  rw [h.1]
  decide

/-! ## C3 -/

/-- A concrete state with an image loaded, the custom style selected and a
whitespace-only custom text, used to instantiate abort-path theorems. -/
def blankCustomState : AppState :=
  { imgState with selectedStyle := "custom", customStyle := "   " }

/-- C3: when `originalImage` is absent the trigger sets `error` to
`請先上傳圖片` and returns with no request; when an image is present but
the resolved prompt is absent or blank after trimming it sets `error` to
`請選擇或輸入風格` and returns with no request; in both cases every other
state field (including `isGenerating`) is exactly as before, as the full
record equalities state. -/
theorem C3_abort_paths (s : AppState) (o : CallOutcome) :
    (s.originalImage = none →
      handleGenerate s o = ({ s with error := some "請先上傳圖片" }, none))
    ∧ (s.originalImage ≠ none →
        (resolvePrompt s = none ∨ (∃ pt, resolvePrompt s = some pt ∧ jsTrim pt = "")) →
        handleGenerate s o = ({ s with error := some "請選擇或輸入風格" }, none)) := by
  constructor
  · intro h
    simp [handleGenerate, h]
  · intro h hr
    obtain ⟨orig, ho⟩ := Option.ne_none_iff_exists'.mp h
    rcases hr with hr | ⟨pt, hp, ht⟩
    · simp [handleGenerate, ho, hr]
    · simp [handleGenerate, ho, hp, ht]

/-- Witness for C3: both abort paths at concrete states — the initial
state (no image) and a loaded-image state with a blank custom style. -/
theorem C3_abort_paths_witness :
    handleGenerate initState (CallOutcome.err none)
        = ({ initState with error := some "請先上傳圖片" }, none)
    ∧ handleGenerate blankCustomState (CallOutcome.err none)
        = ({ blankCustomState with error := some "請選擇或輸入風格" }, none) :=
  ⟨(C3_abort_paths initState (CallOutcome.err none)).1 rfl,
   (C3_abort_paths blankCustomState (CallOutcome.err none)).2 (by decide)
     (Or.inr ⟨"   ", by decide, by decide⟩)⟩

/-! ## C4 -/

/-- C4: once the request stage begins, every failure sets `error` — to the
thrown error's message when present and non-empty, to `發生錯誤，請稍後再試`
when the message is missing, and to `無法生成圖片，請稍後再試` when the
response has no candidate or no inline-data part in the first candidate —
while `generatedImage` stays exactly what it was before the call; and for
every outcome (success or failure) `isGenerating` is `false` when the
attempt completes. -/
theorem C4_failure_paths
    (s : AppState) (orig pt : String)
    (ho : s.originalImage = some orig)
    (hp : resolvePrompt s = some pt) (hb : jsTrim pt ≠ "") :
    (∀ m : String, m ≠ "" →
        (handleGenerate s (CallOutcome.err (some m))).1.error = some m)
    ∧ ((handleGenerate s (CallOutcome.err none)).1.error = some "發生錯誤，請稍後再試")
    ∧ (∀ msg : Option String,
        (handleGenerate s (CallOutcome.err msg)).1.generatedImage = s.generatedImage)
    ∧ (∀ resp : GenResponse,
        (resp.candidates = none ∨ resp.candidates = some []
          ∨ (∃ c cs, resp.candidates = some (c :: cs)
              ∧ ∀ q ∈ c.content.parts, q.inlineData = none)) →
        (handleGenerate s (CallOutcome.ok resp)).1.error = some "無法生成圖片，請稍後再試"
        ∧ (handleGenerate s (CallOutcome.ok resp)).1.generatedImage = s.generatedImage)
    ∧ (∀ o : CallOutcome, (handleGenerate s o).1.isGenerating = false) := by
  refine ⟨?_, ?_, ?_, ?_, ?_⟩
  · intro m hm
    simp [handleGenerate, ho, hp, hb, jsOr, hm]
  · simp [handleGenerate, ho, hp, hb, jsOr, fallbackMsg]
  · intro msg
    simp [handleGenerate, ho, hp, hb]
  · intro resp hresp
    have hfi : firstInline resp = none := by
      rcases hresp with h1 | h1 | ⟨c, cs, h1, hall⟩
      · simp [firstInline, h1]
      · simp [firstInline, h1]
      · simp [firstInline, h1, findSome_inline_none c.content.parts hall]
    constructor
    · simp [handleGenerate, ho, hp, hb, hfi, jsOr]
    · simp [handleGenerate, ho, hp, hb, hfi]
  · intro o
    cases o with
    | ok resp => cases hf : firstInline resp <;> simp [handleGenerate, ho, hp, hb, hf]
    | err msg => simp [handleGenerate, ho, hp, hb]

/-- Witness for C4 at a concrete loaded-image state: a service error with
a message, one without, and an empty response. -/
theorem C4_failure_paths_witness :
    (handleGenerate imgState (CallOutcome.err (some "quota exceeded"))).1.error
        = some "quota exceeded"
    ∧ (handleGenerate imgState (CallOutcome.err none)).1.error = some "發生錯誤，請稍後再試"
    ∧ (handleGenerate imgState (CallOutcome.ok { candidates := none })).1.error
        = some "無法生成圖片，請稍後再試"
    ∧ (handleGenerate imgState (CallOutcome.ok { candidates := none })).1.generatedImage = none
    ∧ (handleGenerate imgState (CallOutcome.err none)).1.isGenerating = false := by
  have h := C4_failure_paths imgState "data:image/png;base64,AAAA"
    "Anime style, Studio Ghibli, high quality, vibrant colors, 2D illustration"
    rfl (by decide) (by decide)
  exact ⟨h.1 "quota exceeded" (by decide), h.2.1,
    (h.2.2.2.1 { candidates := none } (Or.inl rfl)).1,
    (h.2.2.2.1 { candidates := none } (Or.inl rfl)).2,
    h.2.2.2.2 (CallOutcome.err none)⟩

/-! ## C5 -/

/-- Counterexample to C5: the state reached by uploading a PNG and then
invoking Remove Image is reachable, has `originalImage` absent, yet its
`mimeType` is still `"image/png"` — the remove-image handler clears only
`originalImage` and `generatedImage`, never `mimeType`. -/
theorem C5_mimeType_counterexample :
    ¬ (∀ s : AppState, Reachable s → s.originalImage = none → s.mimeType = "") := by
  intro h
  have hr : Reachable (step (step initState
      (Event.upload "image/png" "data:image/png;base64,AAAA")) Event.removeImage) :=
    Reachable.next (Reachable.next Reachable.init _) _
  have hm := h _ hr (by decide)
  revert hm
  decide

/-- C5 as amended: `mimeType` is empty in the initial state, and Remove
Image clears `originalImage` and `generatedImage` but leaves `mimeType`
unchanged — so after removal it retains the removed file's media type
rather than reverting to empty. -/
theorem C5_mimeType_amended :
    initState.mimeType = ""
    ∧ (∀ s : AppState,
        (step s Event.removeImage).originalImage = none
        ∧ (step s Event.removeImage).generatedImage = none
        ∧ (step s Event.removeImage).mimeType = s.mimeType) := by
  refine ⟨rfl, fun s => ⟨rfl, rfl, rfl⟩⟩

/-! ## C6 -/

/-- C6: after a successful file load (declared type in the `image/`
family) and after Remove Image, `generatedImage` is absent. -/
theorem C6_generated_cleared (s : AppState) (fileType dataUrl : String)
    (h : jsStartsWith fileType "image/" = true) :
    (processFile s fileType dataUrl).generatedImage = none
    ∧ (removeImage s).generatedImage = none := by
  constructor
  · simp [processFile, h]
  · rfl

/-- Witness for C6: a PNG upload onto a state that already holds a
generated image, and Remove Image on the same state. -/
theorem C6_generated_cleared_witness :
    (processFile { imgState with generatedImage := some "data:image/png;base64,ZZZZ" }
        "image/png" "data:image/png;base64,AAAA").generatedImage = none
    ∧ (removeImage { imgState with generatedImage := some "data:image/png;base64,ZZZZ" }).generatedImage = none :=
  C6_generated_cleared { imgState with generatedImage := some "data:image/png;base64,ZZZZ" }
    "image/png" "data:image/png;base64,AAAA" (by decide)

/-! ## C7 -/

/-- C7: the generate button is disabled exactly when `originalImage` is
absent, or a generation is in flight, or the custom style is selected
with blank (empty or whitespace-only) custom text; equivalently it is
enabled in every other state. -/
theorem C7_disabled_iff (s : AppState) :
    generateDisabled s = true ↔
      (s.originalImage = none ∨ s.isGenerating = true
        ∨ (s.selectedStyle = "custom" ∧ jsTrim s.customStyle = "")) := by
  cases h : s.originalImage <;> cases hg : s.isGenerating <;>
    simp [generateDisabled, h, hg, Option.isNone]

/-! ## C8 -/

/-- C8: for a file whose declared media type does not start with
`image/`, the file processor only sets `error` to
`請上傳圖片檔案 (JPEG, PNG 等)` — the full record equality shows
`originalImage`, `mimeType`, `generatedImage`, `selectedStyle`,
`customStyle` and `isGenerating` all unchanged. -/
theorem C8_invalid_type (s : AppState) (fileType dataUrl : String)
    (h : jsStartsWith fileType "image/" = false) :
    processFile s fileType dataUrl = { s with error := some "請上傳圖片檔案 (JPEG, PNG 等)" } := by
  simp [processFile, h]

/-- Witness for C8: a `text/plain` file against the initial state. -/
theorem C8_invalid_type_witness :
    processFile initState "text/plain" "data:text/plain;base64,AAAA"
      = { initState with error := some "請上傳圖片檔案 (JPEG, PNG 等)" } :=
  C8_invalid_type initState "text/plain" "data:text/plain;base64,AAAA" (by decide)

/-! ## C9 -/

/-- The resolved prompt ignores `customStyle` whenever a non-custom style
is selected. -/
theorem resolvePrompt_ignores_custom (s : AppState) (c : String)
    (hne : s.selectedStyle ≠ "custom") :
    resolvePrompt { s with customStyle := c } = resolvePrompt s := by
  simp [resolvePrompt, hne]

/-- Two states that agree on `originalImage`, `mimeType` and their
resolved prompt produce the same issued request and the same final
`error` for every outcome. -/
theorem handleGenerate_congr (s t : AppState) (o : CallOutcome)
    (ho : s.originalImage = t.originalImage)
    (hm : s.mimeType = t.mimeType)
    (hr : resolvePrompt s = resolvePrompt t) :
    (handleGenerate s o).2 = (handleGenerate t o).2
    ∧ (handleGenerate s o).1.error = (handleGenerate t o).1.error := by
  cases ho2 : t.originalImage with
  | none =>
    have hs : s.originalImage = none := ho.trans ho2
    simp [handleGenerate, hs, ho2]
  | some orig =>
    have hs : s.originalImage = some orig := ho.trans ho2
    cases hr2 : resolvePrompt t with
    | none =>
      have hrs : resolvePrompt s = none := hr.trans hr2
      simp [handleGenerate, hs, ho2, hrs, hr2]
    | some pt =>
      have hrs : resolvePrompt s = some pt := hr.trans hr2
      by_cases ht : jsTrim pt = ""
      · simp [handleGenerate, hs, ho2, hrs, hr2, ht]
      · cases o with
        | err msg => simp [handleGenerate, hs, ho2, hrs, hr2, ht, hm]
        | ok resp =>
          cases hf : firstInline resp <;>
            simp [handleGenerate, hs, ho2, hrs, hr2, ht, hf, hm]

/-- C9: with a catalog preset selected, the trigger's outcome is
independent of `customStyle` — for any two custom texts the issued
request (or its absence) and the resulting `error` field coincide. -/
theorem C9_preset_ignores_custom
    (s : AppState) (c1 c2 : String) (o : CallOutcome)
    (h : ∃ q ∈ PRESET_STYLES, q.id = s.selectedStyle) :
    (handleGenerate { s with customStyle := c1 } o).2
      = (handleGenerate { s with customStyle := c2 } o).2
    ∧ (handleGenerate { s with customStyle := c1 } o).1.error
      = (handleGenerate { s with customStyle := c2 } o).1.error := by
  obtain ⟨q, hq, hid⟩ := h
  have hne : s.selectedStyle ≠ "custom" := by
    have hsel := hid.symm
    simp only [PRESET_STYLES, List.mem_cons, List.not_mem_nil, or_false] at hq
    rcases hq with rfl | rfl | rfl | rfl | rfl <;> (rw [hsel]; decide)
  exact handleGenerate_congr { s with customStyle := c1 } { s with customStyle := c2 } o
    rfl rfl ((resolvePrompt_ignores_custom s c1 hne).trans
      (resolvePrompt_ignores_custom s c2 hne).symm)

/-- Witness for C9: the loaded-image state with the `anime` preset, an
empty custom text versus a non-empty one, under an error outcome. -/
theorem C9_preset_ignores_custom_witness :
    (handleGenerate { imgState with customStyle := "" } (CallOutcome.err none)).2
      = (handleGenerate { imgState with customStyle := "pixel art" } (CallOutcome.err none)).2
    ∧ (handleGenerate { imgState with customStyle := "" } (CallOutcome.err none)).1.error
      = (handleGenerate { imgState with customStyle := "pixel art" } (CallOutcome.err none)).1.error :=
  C9_preset_ignores_custom imgState "" "pixel art" (CallOutcome.err none)
    ⟨{ id := "anime", label := "動漫風格",
       description := "Inspired by Japanese animation with vibrant colors and distinct character designs.",
       prompt := "Anime style, Studio Ghibli, high quality, vibrant colors, 2D illustration" },
     by decide, rfl⟩

/-! ## C10 -/

/-- C10: when `selectedStyle` is neither `"custom"` nor any catalog id,
the trigger issues no request for any outcome, and — when an image is
loaded — sets `error` to `請選擇或輸入風格` leaving every other field
unchanged (the catalog lookup finds nothing, so the blank-prompt abort
fires; the handler is a total function, so no crash is possible). -/
theorem C10_unknown_style_safe
    (s : AppState) (o : CallOutcome)
    (hne : s.selectedStyle ≠ "custom")
    (hmem : ∀ q ∈ PRESET_STYLES, q.id ≠ s.selectedStyle) :
    (handleGenerate s o).2 = none
    ∧ (s.originalImage ≠ none →
        handleGenerate s o = ({ s with error := some "請選擇或輸入風格" }, none)) := by
  have hfind : PRESET_STYLES.find? (fun p => p.id == s.selectedStyle) = none := by
    rw [List.find?_eq_none]
    intro q hq
    simp [hmem q hq]
  have hr : resolvePrompt s = none := by
    simp [resolvePrompt, hne, hfind]
  constructor
  · cases ho : s.originalImage with
    | none => simp [handleGenerate, ho]
    | some orig => simp [handleGenerate, ho, hr]
  · intro h
    obtain ⟨orig, ho⟩ := Option.ne_none_iff_exists'.mp h
    simp [handleGenerate, ho, hr]

/-- Witness for C10: the loaded-image state with the unknown style id
`"vaporwave"`. -/
theorem C10_unknown_style_safe_witness :
    (handleGenerate { imgState with selectedStyle := "vaporwave" } (CallOutcome.err none)).2 = none
    ∧ handleGenerate { imgState with selectedStyle := "vaporwave" } (CallOutcome.err none)
        = ({ imgState with selectedStyle := "vaporwave", error := some "請選擇或輸入風格" }, none) := by
  have h := C10_unknown_style_safe { imgState with selectedStyle := "vaporwave" }
    (CallOutcome.err none) (by decide) (by decide)
  exact ⟨h.1, h.2 (by decide)⟩
